import Mathlib

/-!
Verification of the dual-model translation merge engine
(`backend/src/services/translation.service.ts` and
`backend/src/controllers/translation.controller.ts`).

Numbers: JavaScript floating-point similarity and confidence values are
modelled as exact rationals (`Rat`); every constant appearing in the source
(0.9, 0.7, 0.95, 0.85, 0.75, 175, ...) is exactly representable and all
comparisons in the source are between such values, so the rational model
agrees with the float semantics on the properties stated here.

External model calls (the two translation providers and the verification
arbiter) are modelled as oracle outcomes: `Except Unit (Option String)`
is the outcome of one API call — `.error ()` for a thrown call,
`.ok content` for a completed call whose message content may be null.
-/

set_option autoImplicit false

namespace TranslationMerge

/-! ### JavaScript string primitives used by the service -/

/-- Model of `String.prototype.toLowerCase` as used on the token strings. -/
def jsLower (s : String) : String := String.mk (s.data.map Char.toLower)

/-- Model of `String.prototype.toUpperCase`. -/
def jsToUpper (s : String) : String := String.mk (s.data.map Char.toUpper)

/-- Model of `String.prototype.trim`: drop whitespace at both ends. -/
def jsTrim (s : String) : String :=
  String.mk (((s.data.dropWhile Char.isWhitespace).reverse.dropWhile Char.isWhitespace).reverse)

/-- Model of `str.split(/\s+/)` on a character list: split on maximal runs
of whitespace. As in JavaScript, a leading run of whitespace contributes a
leading empty token, a trailing run a trailing empty token, and the empty
string yields the single token `""`. -/
def splitWsChars : List Char → List (List Char)
  | [] => [[]]
  | c :: cs =>
    if c.isWhitespace then
      match cs with
      | [] => [[], []]
      | d :: _ => if d.isWhitespace then splitWsChars cs else [] :: splitWsChars cs
    else
      match splitWsChars cs with
      | [] => [[c]]
      | t :: ts => (c :: t) :: ts

/-- Model of `str.split(/\s+/)` returning strings. -/
def jsSplitWs (s : String) : List String := (splitWsChars s.data).map String.mk

/-! ### Data model (`translation.service.ts` interfaces) -/

/-- `TranslationSegment`: one time-bounded unit of source text. -/
structure TranslationSegment where
  id : Int
  text : String
  startTime : Rat
  endTime : Rat
  deriving DecidableEq, Repr

/-- Metadata attached to one provider result. -/
structure ResultMetadata where
  wordCount : Nat
  estimatedDuration : Option Rat
  deriving DecidableEq, Repr

/-- `TranslationResult`: output of one provider call. -/
structure TranslationResult where
  translatedText : String
  confidence : Rat
  model : String
  metadata : Option ResultMetadata
  deriving DecidableEq, Repr

/-- Metadata of a merged translation (`gpt4Result`, `geminiResult`,
`mergeStrategy`); the second field keeps the source property name
`geminiResult` even though it holds the GPT-4-turbo result. -/
structure MergedMetadata where
  gpt4Result : TranslationResult
  geminiResult : TranslationResult
  mergeStrategy : String
  deriving DecidableEq, Repr

/-- `MergedTranslation`: the terminal artifact produced per segment. -/
structure MergedTranslation where
  text : String
  confidence : Rat
  primaryModel : String
  comparisonScore : Rat
  metadata : MergedMetadata
  deriving DecidableEq, Repr

/-! ### Language tables -/

/-- The ten-entry `languageMap` of `TranslationService`. -/
def languageMap : List (String × String) :=
  [("es", "Spanish"), ("zh", "Chinese (Mandarin)"), ("ru", "Russian"),
   ("bn", "Bengali"), ("ht", "Haitian Creole"), ("ko", "Korean"),
   ("ar", "Arabic"), ("ur", "Urdu"), ("fr", "French"), ("pl", "Polish")]

/-- The per-language speaking-rate table of `estimateDuration`. -/
def speechRates : List (String × Rat) :=
  [("Spanish", 180), ("Chinese", 160), ("Russian", 184), ("Bengali", 170),
   ("Haitian Creole", 175), ("Korean", 170), ("Arabic", 165), ("Urdu", 170),
   ("French", 195), ("Polish", 190)]

/-- `estimateDuration(text, language)`: words-per-minute lookup with
default 175, word count via `text.split(/\s+/).length`, result in
seconds. -/
def estimateDuration (text : String) (language : String) : Rat :=
  let wordsPerMinute := (speechRates.lookup language).getD 175
  let wordCount : Nat := (jsSplitWs text).length
  ((wordCount : Rat) / wordsPerMinute) * 60

/-! ### Similarity scorer -/

/-- Token set of one text as built by `calculateSimilarity`: lower-case,
split on whitespace, collect into a set. -/
def tokenSet (text : String) : Finset String :=
  (jsSplitWs (jsLower text)).toFinset

/-- `calculateSimilarity(text1, text2)`: token-set Jaccard ratio
`|set1 ∩ set2| / |set1 ∪ set2|`. -/
def calculateSimilarity (text1 text2 : String) : Rat :=
  let set1 := tokenSet text1
  let set2 := tokenSet text2
  ((set1 ∩ set2).card : Rat) / ((set1 ∪ set2).card : Rat)

/-! ### Verification arbiter -/

/-- Outcome of one external model call: the call either throws
(`.error ()`) or completes with a message content that may be null
(`.ok content`). -/
abbrev CallOutcome := Except Unit (Option String)

/-- Return value of `verifyTranslation`. -/
structure VerificationChoice where
  preferredTranslation : String
  preferredModel : String
  confidence : Rat
  deriving DecidableEq, Repr

/-- `verifyTranslation`: one arbiter call adjudicates between the two
candidate texts. A thrown call is caught and falls back to the GPT-4
candidate with confidence 0.75; a completed call is parsed as
`content?.trim().toUpperCase()` and compared against the literal "A":
on a match the GPT-4 candidate wins with confidence 0.85, on anything
else (including "B", any other token, or null content) the GPT-4-turbo
candidate wins with confidence 0.85. -/
def verifyTranslation (arbiterCall : CallOutcome)
    (gpt4Translation gpt4TurboTranslation : String) : VerificationChoice :=
  match arbiterCall with
  | .error _ =>
    { preferredTranslation := gpt4Translation
      preferredModel := "gpt-4"
      confidence := 3/4 }
  | .ok content =>
    let choice : Option String := content.map (fun c => jsToUpper (jsTrim c))
    if choice = some "A" then
      { preferredTranslation := gpt4Translation
        preferredModel := "gpt-4"
        confidence := 17/20 }
    else
      { preferredTranslation := gpt4TurboTranslation
        preferredModel := "gpt-4-turbo"
        confidence := 17/20 }

/-! ### Merge resolver -/

/-- `mergeTranslations`: compare the two candidate translations with
`calculateSimilarity` and resolve by regime. Similarity above 0.9 keeps
the GPT-4 text with confidence 0.95 (`high_agreement`); similarity above
0.7 defers to the verification arbiter (`verified_selection`); otherwise
the GPT-4 text is kept with confidence 0.7 and the segment is flagged
(`low_agreement_flagged`). The arbiter call outcome is passed in as a
parameter; it is consulted only in the middle regime. -/
def mergeTranslations (arbiterCall : CallOutcome)
    (gpt4Result gpt4TurboResult : TranslationResult) : MergedTranslation :=
  let similarity :=
    calculateSimilarity gpt4Result.translatedText gpt4TurboResult.translatedText
  if similarity > 9/10 then
    { text := gpt4Result.translatedText
      confidence := 19/20
      primaryModel := "gpt-4"
      comparisonScore := similarity
      metadata :=
        { gpt4Result := gpt4Result
          geminiResult := gpt4TurboResult
          mergeStrategy := "high_agreement" } }
  else if similarity > 7/10 then
    let verification :=
      verifyTranslation arbiterCall gpt4Result.translatedText gpt4TurboResult.translatedText
    { text := verification.preferredTranslation
      confidence := verification.confidence
      primaryModel := verification.preferredModel
      comparisonScore := similarity
      metadata :=
        { gpt4Result := gpt4Result
          geminiResult := gpt4TurboResult
          mergeStrategy := "verified_selection" } }
  else
    { text := gpt4Result.translatedText
      confidence := 7/10
      primaryModel := "gpt-4"
      comparisonScore := similarity
      metadata :=
        { gpt4Result := gpt4Result
          geminiResult := gpt4TurboResult
          mergeStrategy := "low_agreement_flagged" } }

/-! ### Translation orchestrator -/

/-- The three external model backends, as oracles: for each segment, the
outcome of the GPT-4 call, of the GPT-4-turbo call, and of the
verification-arbiter call for that segment (the arbiter outcome is
consulted only when the merge resolver reaches the middle regime). -/
structure Oracles where
  gpt4 : TranslationSegment → CallOutcome
  gpt4Turbo : TranslationSegment → CallOutcome
  arbiter : TranslationSegment → CallOutcome

/-- The `targetLanguage = languageMap[code] || code` resolution of
`translateWithContext`: an unsupported code falls back to the code
itself as the language name. -/
def targetLanguageOf (targetLanguageCode : String) : String :=
  (languageMap.lookup targetLanguageCode).getD targetLanguageCode

/-- `translateWithGPT4`: one provider call; a thrown call propagates, a
completed call yields a `TranslationResult` with the trimmed content (or
the empty string on null content), fixed base confidence 0.9 and model
label "gpt-4". -/
def translateWithGPT4 (o : Oracles) (seg : TranslationSegment)
    (targetLanguage : String) : Except Unit TranslationResult :=
  match o.gpt4 seg with
  | .error e => .error e
  | .ok content =>
    let translatedText := (content.map jsTrim).getD ""
    .ok { translatedText := translatedText
          confidence := 9/10
          model := "gpt-4"
          metadata := some
            { wordCount := (jsSplitWs translatedText).length
              estimatedDuration := some (estimateDuration translatedText targetLanguage) } }

/-- `translateWithGPT4Turbo`: the second provider call, with fixed base
confidence 0.85 and model label "gpt-4-turbo". -/
def translateWithGPT4Turbo (o : Oracles) (seg : TranslationSegment)
    (targetLanguage : String) : Except Unit TranslationResult :=
  match o.gpt4Turbo seg with
  | .error e => .error e
  | .ok content =>
    let translatedText := (content.map jsTrim).getD ""
    .ok { translatedText := translatedText
          confidence := 17/20
          model := "gpt-4-turbo"
          metadata := some
            { wordCount := (jsSplitWs translatedText).length
              estimatedDuration := some (estimateDuration translatedText targetLanguage) } }

/-- One iteration of the `translateWithContext` segment loop: both provider
calls (issued together via `Promise.all`; a failure of either is fatal),
then the merge resolver. -/
def translateSegment (o : Oracles) (targetLanguage : String)
    (seg : TranslationSegment) : Except Unit MergedTranslation := do
  let gpt4Result ← translateWithGPT4 o seg targetLanguage
  let gpt4TurboResult ← translateWithGPT4Turbo o seg targetLanguage
  pure (mergeTranslations (o.arbiter seg) gpt4Result gpt4TurboResult)

/-- The segment loop of `translateWithContext`: segments processed
sequentially in input order, results appended in order; the first segment
failure rethrows and aborts the loop. -/
def translateLoop (o : Oracles) (targetLanguage : String) :
    List TranslationSegment → Except Unit (List MergedTranslation)
  | [] => .ok []
  | seg :: rest => do
    let merged ← translateSegment o targetLanguage seg
    let results ← translateLoop o targetLanguage rest
    pure (merged :: results)

/-- `translateWithContext(segments, targetLanguageCode, context)`: resolve
the language name, then run the segment loop. The context only shapes the
prompt text inside the provider calls, which the oracles absorb. -/
def translateWithContext (o : Oracles) (segments : List TranslationSegment)
    (targetLanguageCode : String) : Except Unit (List MergedTranslation) :=
  translateLoop o (targetLanguageOf targetLanguageCode) segments

/-- `batchTranslate`: process fixed-size chunks of 5 segments
sequentially, each chunk through `translateWithContext`, concatenating
chunk results in order. -/
def batchTranslate (o : Oracles) (segments : List TranslationSegment)
    (targetLanguageCode : String) : Except Unit (List MergedTranslation) :=
  if h : segments = [] then .ok []
  else do
    let batchResults ← translateWithContext o (segments.take 5) targetLanguageCode
    let rest ← batchTranslate o (segments.drop 5) targetLanguageCode
    pure (batchResults ++ rest)
termination_by segments.length
decreasing_by
  simp only [List.length_drop]
  exact Nat.sub_lt (List.length_pos.mpr h) (by decide)

/-! ### Provider-call accounting

To state when external provider calls are issued, each segment iteration
is charged its two provider calls (both are issued together before either
result is awaited), and the loop stops charging after the first fatal
segment. -/

/-- Whether an `Except` outcome is a success. -/
def isOkOutcome {α : Type} : Except Unit α → Bool
  | .ok _ => true
  | .error _ => false

/-- The two provider calls issued for one segment. -/
def segmentProviderCalls (seg : TranslationSegment) : List (Int × String) :=
  [(seg.id, "gpt-4"), (seg.id, "gpt-4-turbo")]

/-- Provider calls issued by the segment loop: two per segment, in input
order, up to and including the first failing segment. -/
def providerCallTrace (o : Oracles) (targetLanguage : String) :
    List TranslationSegment → List (Int × String)
  | [] => []
  | seg :: rest =>
    segmentProviderCalls seg ++
      (if isOkOutcome (translateSegment o targetLanguage seg) then
        providerCallTrace o targetLanguage rest
      else [])

/-! ### Controller (`translation.controller.ts`, `translateVideo`) -/

/-- The `translateVideo` request validation: rejects only a missing
segments array or a falsy (empty) target language, with HTTP 400. -/
def translateVideoAccepted (targetLanguage : String)
    (segments : Option (List TranslationSegment)) : Bool :=
  match segments with
  | none => false
  | some _ => targetLanguage != ""

/-- The `translateVideo` controller flow: validation, then
`translateWithContext`; a translation failure is reported as a 500-style
error message. Response formatting beyond the merged translations is
omitted; the per-segment QA status it attaches is modelled by
`qaStatus`. -/
def translateVideo (o : Oracles) (targetLanguage : String)
    (segments : Option (List TranslationSegment)) :
    Except String (List MergedTranslation) :=
  if translateVideoAccepted targetLanguage segments then
    match segments with
    | none => .error "Target language and segments are required"
    | some segs =>
      match translateWithContext o segs targetLanguage with
      | .error _ => .error "Failed to translate video segments"
      | .ok results => .ok results
  else .error "Target language and segments are required"

/-- Provider calls issued by one `translateVideo` request: none when the
request is rejected by validation, otherwise those of the segment loop. -/
def translateVideoCalls (o : Oracles) (targetLanguage : String)
    (segments : Option (List TranslationSegment)) : List (Int × String) :=
  if translateVideoAccepted targetLanguage segments then
    match segments with
    | none => []
    | some segs => providerCallTrace o (targetLanguageOf targetLanguage) segs
  else []

/-- The per-segment QA status of the `translateVideo` response:
`confidence > 0.9` is approved, `confidence > 0.8` needs review, anything
else is flagged. -/
def qaStatus (confidence : Rat) : String :=
  if confidence > 9/10 then "approved"
  else if confidence > 8/10 then "needs-review"
  else "flagged"

/-- Modelled from the spec: the three-tier QA mapping as the spec words
it, with inclusive boundaries (approved at `confidence ≥ 0.90`, needs
review at `confidence ≥ 0.80`), for comparison with `qaStatus`. -/
def qaStatusClaimed (confidence : Rat) : String :=
  if confidence ≥ 9/10 then "approved"
  else if confidence ≥ 8/10 then "needs-review"
  else "flagged"

/-! ### Concrete fixtures used in witnesses and counterexamples -/

/-- A provider result with the given text and no metadata. -/
def sampleResult (text : String) (confidence : Rat) (model : String) :
    TranslationResult :=
  { translatedText := text, confidence := confidence, model := model, metadata := none }

/-- Candidate A with ten distinct tokens. -/
def resTen : TranslationResult := sampleResult "a b c d e f g h i j" (9/10) "gpt-4"

/-- Candidate B sharing nine of the ten tokens: similarity exactly 0.9. -/
def resNine : TranslationResult := sampleResult "a b c d e f g h i" (17/20) "gpt-4-turbo"

/-- Candidate B sharing seven of the ten tokens: similarity exactly 0.7. -/
def resSeven : TranslationResult := sampleResult "a b c d e f g" (17/20) "gpt-4-turbo"

/-- Candidate with a two-token text. -/
def resHola : TranslationResult := sampleResult "hola mundo" (9/10) "gpt-4"

/-- Candidate with a single token `x`. -/
def resX : TranslationResult := sampleResult "x" (9/10) "gpt-4"

/-- Candidate with a single token `y`, disjoint from `resX`. -/
def resY : TranslationResult := sampleResult "y" (17/20) "gpt-4-turbo"

/-- A well-formed sample segment with the given id. -/
def sampleSegment (i : Int) : TranslationSegment :=
  { id := i, text := "hello world", startTime := 0, endTime := 2 }

/-- A malformed segment: its time bounds are non-increasing. -/
def badSegment : TranslationSegment :=
  { id := 1, text := "hello", startTime := 5, endTime := 2 }

/-- Oracles on which every call completes: both providers return the same
two-token text and the arbiter answers "A". -/
def okOracles : Oracles :=
  { gpt4 := fun _ => .ok (some "hola mundo")
    gpt4Turbo := fun _ => .ok (some "hola mundo")
    arbiter := fun _ => .ok (some "A") }

/-- Oracles on which the GPT-4-turbo call throws exactly on the segment
with id 2. -/
def failSecondTurbo : Oracles :=
  { gpt4 := fun _ => .ok (some "hola mundo")
    gpt4Turbo := fun seg => if seg.id = 2 then .error () else .ok (some "hola mundo")
    arbiter := fun _ => .ok (some "A") }

/-- Oracles on which the arbiter call always throws. -/
def arbErrOracles : Oracles :=
  { okOracles with arbiter := fun _ => .error () }

/-! ## Facts about the tokenizer and the similarity scorer -/

theorem splitWsChars_ne_nil (l : List Char) : splitWsChars l ≠ [] := by
  induction l with
  | nil => simp [splitWsChars]
  | cons c cs ih =>
    rw [splitWsChars.eq_def]
    by_cases hc : c.isWhitespace
    · simp only [hc, if_true]
      cases cs with
      | nil => simp
      | cons d ds =>
        by_cases hd : d.isWhitespace
        · simpa [hd] using ih
        · simp [hd]
    · simp only [hc]
      cases h : splitWsChars cs with
      | nil => simp
      | cons t ts => simp

theorem jsSplitWs_ne_nil (s : String) : jsSplitWs s ≠ [] := by
  simp [jsSplitWs, splitWsChars_ne_nil]

theorem tokenSet_nonempty (s : String) : (tokenSet s).Nonempty := by
  have h := jsSplitWs_ne_nil (jsLower s)
  cases hs : jsSplitWs (jsLower s) with
  | nil => exact absurd hs h
  | cons t ts => exact ⟨t, by simp [tokenSet, hs]⟩

theorem tokenUnion_card_pos (t1 t2 : String) :
    0 < (((tokenSet t1 ∪ tokenSet t2).card : Nat) : Rat) := by
  have h : 0 < (tokenSet t1 ∪ tokenSet t2).card :=
    Finset.card_pos.mpr (tokenSet_nonempty t1).inl
  exact_mod_cast h

/-- C4: `calculateSimilarity` is the token-set Jaccard ratio of the
lower-cased, whitespace-split token sets (tokenization follows the
source split, where a leading or trailing whitespace run contributes an
empty token and the empty string contributes the token `""`); it is
symmetric, always lies in `[0, 1]`, equals 1 on any pair of identical
strings, and scores the pair of empty texts (which are identical) as 1. -/
theorem calculateSimilarity_jaccard_properties (t1 t2 : String) :
    calculateSimilarity t1 t2 =
      (((tokenSet t1 ∩ tokenSet t2).card : Nat) : Rat) /
        (((tokenSet t1 ∪ tokenSet t2).card : Nat) : Rat) ∧
    calculateSimilarity t1 t2 = calculateSimilarity t2 t1 ∧
    0 ≤ calculateSimilarity t1 t2 ∧
    calculateSimilarity t1 t2 ≤ 1 ∧
    calculateSimilarity t1 t1 = 1 ∧
    calculateSimilarity "" "" = 1 := by
  refine ⟨rfl, ?_, ?_, ?_, ?_, ?_⟩
  · simp only [calculateSimilarity]
    rw [Finset.inter_comm, Finset.union_comm]
  · exact div_nonneg (by positivity) (le_of_lt (tokenUnion_card_pos t1 t2))
  · refine div_le_one_of_le₀ ?_ (le_of_lt (tokenUnion_card_pos t1 t2))
    exact_mod_cast Finset.card_le_card Finset.inter_subset_union
  · simp only [calculateSimilarity]
    rw [Finset.inter_self, Finset.union_self]
    exact div_self (ne_of_gt (by exact_mod_cast Finset.card_pos.mpr (tokenSet_nonempty t1)))
  · with_unfolding_all decide

/-! ## Equation lemmas for the merge resolver -/

theorem merge_strategy_eq (arb : CallOutcome) (a b : TranslationResult) :
    (mergeTranslations arb a b).metadata.mergeStrategy =
      (if calculateSimilarity a.translatedText b.translatedText > 9/10 then
        "high_agreement"
      else if calculateSimilarity a.translatedText b.translatedText > 7/10 then
        "verified_selection"
      else "low_agreement_flagged") := by
  simp only [mergeTranslations]
  split_ifs <;> rfl

theorem merge_score_eq (arb : CallOutcome) (a b : TranslationResult) :
    (mergeTranslations arb a b).comparisonScore =
      calculateSimilarity a.translatedText b.translatedText := by
  simp only [mergeTranslations]
  split_ifs <;> rfl

theorem merge_confidence_eq (arb : CallOutcome) (a b : TranslationResult) :
    (mergeTranslations arb a b).confidence =
      (if calculateSimilarity a.translatedText b.translatedText > 9/10 then 19/20
      else if calculateSimilarity a.translatedText b.translatedText > 7/10 then
        (verifyTranslation arb a.translatedText b.translatedText).confidence
      else 7/10) := by
  simp only [mergeTranslations]
  split_ifs <;> rfl

theorem merge_text_eq (arb : CallOutcome) (a b : TranslationResult) :
    (mergeTranslations arb a b).text =
      (if calculateSimilarity a.translatedText b.translatedText > 9/10 then
        a.translatedText
      else if calculateSimilarity a.translatedText b.translatedText > 7/10 then
        (verifyTranslation arb a.translatedText b.translatedText).preferredTranslation
      else a.translatedText) := by
  simp only [mergeTranslations]
  split_ifs <;> rfl

theorem merge_model_eq (arb : CallOutcome) (a b : TranslationResult) :
    (mergeTranslations arb a b).primaryModel =
      (if calculateSimilarity a.translatedText b.translatedText > 9/10 then "gpt-4"
      else if calculateSimilarity a.translatedText b.translatedText > 7/10 then
        (verifyTranslation arb a.translatedText b.translatedText).preferredModel
      else "gpt-4") := by
  simp only [mergeTranslations]
  split_ifs <;> rfl

theorem strategy_high_iff (arb : CallOutcome) (a b : TranslationResult) :
    (mergeTranslations arb a b).metadata.mergeStrategy = "high_agreement" ↔
      calculateSimilarity a.translatedText b.translatedText > 9/10 := by
  rw [merge_strategy_eq]
  split_ifs with h1 h2
  · simpa using h1
  · simp only [show (("verified_selection" : String) = "high_agreement") = False from by simp]
    simpa using h1
  · simp only [show (("low_agreement_flagged" : String) = "high_agreement") = False from by simp]
    simpa using h1

theorem strategy_ver_iff (arb : CallOutcome) (a b : TranslationResult) :
    (mergeTranslations arb a b).metadata.mergeStrategy = "verified_selection" ↔
      (calculateSimilarity a.translatedText b.translatedText > 7/10 ∧
        calculateSimilarity a.translatedText b.translatedText ≤ 9/10) := by
  rw [merge_strategy_eq]
  split_ifs with h1 h2
  · simp only [show (("high_agreement" : String) = "verified_selection") = False from by simp]
    constructor
    · intro hf; exact hf.elim
    · rintro ⟨-, hle⟩; exact absurd h1 (not_lt.mpr hle)
  · simpa using ⟨h2, not_lt.mp h1⟩
  · simp only [show (("low_agreement_flagged" : String) = "verified_selection") = False from by simp]
    constructor
    · intro hf; exact hf.elim
    · rintro ⟨hgt, -⟩; exact absurd hgt h2

theorem strategy_low_iff (arb : CallOutcome) (a b : TranslationResult) :
    (mergeTranslations arb a b).metadata.mergeStrategy = "low_agreement_flagged" ↔
      calculateSimilarity a.translatedText b.translatedText ≤ 7/10 := by
  rw [merge_strategy_eq]
  split_ifs with h1 h2
  · simp only [show (("high_agreement" : String) = "low_agreement_flagged") = False from by simp]
    constructor
    · intro hf; exact hf.elim
    · intro hle; exact absurd h1 (not_lt.mpr (le_trans hle (by norm_num)))
  · simp only [show (("verified_selection" : String) = "low_agreement_flagged") = False from by simp]
    constructor
    · intro hf; exact hf.elim
    · intro hle; exact absurd h2 (not_lt.mpr hle)
  · simpa using not_lt.mp h2

/-- C1 (amended): the merge resolver selects exactly one of the three
regimes from the similarity score `s` with strict thresholds: high
agreement iff `s > 0.90`, verified selection iff `0.70 < s ≤ 0.90`, low
agreement iff `s ≤ 0.70`; in particular `s = 0.90` falls in verified
selection and `s = 0.70` in the flagged regime, the boundaries being
exclusive-upper rather than the claimed inclusive-lower at 0.90. In the
high-agreement regime the result is provider A text, primary model
"gpt-4" and confidence 0.95; in the flagged regime provider A text,
"gpt-4" and confidence 0.7. -/
theorem mergeTranslations_regime_selection (arb : CallOutcome) (a b : TranslationResult) :
    ((mergeTranslations arb a b).metadata.mergeStrategy = "high_agreement" ↔
      calculateSimilarity a.translatedText b.translatedText > 9/10) ∧
    ((mergeTranslations arb a b).metadata.mergeStrategy = "verified_selection" ↔
      (calculateSimilarity a.translatedText b.translatedText > 7/10 ∧
        calculateSimilarity a.translatedText b.translatedText ≤ 9/10)) ∧
    ((mergeTranslations arb a b).metadata.mergeStrategy = "low_agreement_flagged" ↔
      calculateSimilarity a.translatedText b.translatedText ≤ 7/10) ∧
    (calculateSimilarity a.translatedText b.translatedText > 9/10 →
      (mergeTranslations arb a b).text = a.translatedText ∧
      (mergeTranslations arb a b).primaryModel = "gpt-4" ∧
      (mergeTranslations arb a b).confidence = 19/20) ∧
    (calculateSimilarity a.translatedText b.translatedText ≤ 7/10 →
      (mergeTranslations arb a b).text = a.translatedText ∧
      (mergeTranslations arb a b).primaryModel = "gpt-4" ∧
      (mergeTranslations arb a b).confidence = 7/10) := by
  refine ⟨strategy_high_iff arb a b, strategy_ver_iff arb a b, strategy_low_iff arb a b, ?_, ?_⟩
  · intro h1
    rw [merge_text_eq, merge_model_eq, merge_confidence_eq]
    rw [if_pos h1, if_pos h1, if_pos h1]
    exact ⟨rfl, rfl, rfl⟩
  · intro hle
    have h1 : ¬ calculateSimilarity a.translatedText b.translatedText > 9/10 :=
      not_lt.mpr (le_trans hle (by norm_num))
    have h2 : ¬ calculateSimilarity a.translatedText b.translatedText > 7/10 :=
      not_lt.mpr hle
    rw [merge_text_eq, merge_model_eq, merge_confidence_eq]
    rw [if_neg h1, if_neg h2, if_neg h1, if_neg h2, if_neg h1, if_neg h2]
    exact ⟨rfl, rfl, rfl⟩

/-- C10: in every regime, including the arbiter-failure fallback, the
merged text is exactly one of the two candidate texts, and the primary
model is the fixed label of the provider whose text was chosen: "gpt-4"
when provider A text is kept, "gpt-4-turbo" when provider B text is
kept. -/
theorem merge_text_from_candidates (arb : CallOutcome) (a b : TranslationResult) :
    ((mergeTranslations arb a b).text = a.translatedText ∧
      (mergeTranslations arb a b).primaryModel = "gpt-4") ∨
    ((mergeTranslations arb a b).text = b.translatedText ∧
      (mergeTranslations arb a b).primaryModel = "gpt-4-turbo") := by
  rw [merge_text_eq, merge_model_eq]
  split_ifs with h1 h2
  · exact Or.inl ⟨rfl, rfl⟩
  · cases arb with
    | error e => exact Or.inl ⟨rfl, rfl⟩
    | ok content =>
      by_cases hc : content.map (fun c => jsToUpper (jsTrim c)) = some "A"
      · exact Or.inl ⟨by simp [verifyTranslation, hc], by simp [verifyTranslation, hc]⟩
      · exact Or.inr ⟨by simp [verifyTranslation, hc], by simp [verifyTranslation, hc]⟩
  · exact Or.inl ⟨rfl, rfl⟩

/-- Witness for the regime-selection theorem: identical two-token
candidates score 1 and land in the high-agreement payload; disjoint
one-token candidates score 0 and land in the flagged payload. -/
theorem mergeTranslations_regime_selection_witness :
    ((mergeTranslations (.ok (some "A")) resHola resHola).confidence = 19/20 ∧
      (mergeTranslations (.ok (some "A")) resHola resHola).text = resHola.translatedText) ∧
    ((mergeTranslations (.ok (some "A")) resX resY).confidence = 7/10 ∧
      (mergeTranslations (.ok (some "A")) resX resY).text = resX.translatedText) := by
  constructor
  · have h := (mergeTranslations_regime_selection (.ok (some "A")) resHola resHola).2.2.2.1
      (by with_unfolding_all decide)
    exact ⟨h.2.2, h.1⟩
  · have h := (mergeTranslations_regime_selection (.ok (some "A")) resX resY).2.2.2.2
      (by with_unfolding_all decide)
    exact ⟨h.2.2, h.1⟩

/-- Counterexample to C1 as claimed: a candidate pair with similarity
exactly 0.9 is assigned the verified-selection regime, not the claimed
high-agreement regime, and does not get confidence 0.95. -/
theorem regime_boundary_counterexample :
    calculateSimilarity resTen.translatedText resNine.translatedText = 9/10 ∧
    (mergeTranslations (.ok (some "A")) resTen resNine).metadata.mergeStrategy =
      "verified_selection" ∧
    (mergeTranslations (.ok (some "A")) resTen resNine).metadata.mergeStrategy ≠
      "high_agreement" ∧
    (mergeTranslations (.ok (some "A")) resTen resNine).confidence ≠ 19/20 := by
  with_unfolding_all decide

/-! ## Arbiter fallback (C2) -/

theorem translateSegment_ok (o : Oracles) (lang : String) (seg : TranslationSegment)
    (hg : o.gpt4 seg ≠ .error ()) (ht : o.gpt4Turbo seg ≠ .error ()) :
    ∃ m, translateSegment o lang seg = .ok m := by
  cases hA : o.gpt4 seg with
  | error e => exact absurd hA (by cases e; exact hg)
  | ok ca =>
    cases hB : o.gpt4Turbo seg with
    | error e => exact absurd hB (by cases e; exact ht)
    | ok cb =>
      simp only [translateSegment, translateWithGPT4, translateWithGPT4Turbo, hA, hB,
        Bind.bind, Except.bind]
      exact ⟨_, rfl⟩

theorem translateLoop_ok (o : Oracles) (lang : String) (segs : List TranslationSegment)
    (h : ∀ s ∈ segs, o.gpt4 s ≠ .error () ∧ o.gpt4Turbo s ≠ .error ()) :
    ∃ l, translateLoop o lang segs = .ok l := by
  induction segs with
  | nil => exact ⟨[], rfl⟩
  | cons seg rest ih =>
    obtain ⟨m, hm⟩ := translateSegment_ok o lang seg
      (h seg (by simp)).1 (h seg (by simp)).2
    obtain ⟨l, hl⟩ := ih (fun s hs => h s (by simp [hs]))
    exact ⟨m :: l, by simp [translateLoop, hm, hl, Bind.bind, Except.bind, Pure.pure, Except.pure]⟩

/-- C2 (amended): in the verified-selection regime, a thrown arbiter call
is absorbed with a fallback to candidate A, label "gpt-4" and confidence
exactly 0.75; but an arbiter call that completes with any response other
than the token "A" (after trim and upper-casing) — including "B", any
other token, or null content — selects candidate B with label
"gpt-4-turbo" and confidence 0.85. Only thrown calls reach the 0.75
fallback. In either case nothing is raised: a batch whose provider calls
all succeed returns a result, whatever the arbiter outcomes. -/
theorem verified_selection_fallback (a b : TranslationResult)
    (h1 : calculateSimilarity a.translatedText b.translatedText > 7/10)
    (h2 : calculateSimilarity a.translatedText b.translatedText ≤ 9/10) :
    ((mergeTranslations (.error ()) a b).text = a.translatedText ∧
      (mergeTranslations (.error ()) a b).primaryModel = "gpt-4" ∧
      (mergeTranslations (.error ()) a b).confidence = 3/4 ∧
      (mergeTranslations (.error ()) a b).metadata.mergeStrategy = "verified_selection") ∧
    (∀ content : Option String,
      content.map (fun c => jsToUpper (jsTrim c)) ≠ some "A" →
      (mergeTranslations (.ok content) a b).text = b.translatedText ∧
      (mergeTranslations (.ok content) a b).primaryModel = "gpt-4-turbo" ∧
      (mergeTranslations (.ok content) a b).confidence = 17/20) ∧
    (∀ (o : Oracles) (code : String) (segs : List TranslationSegment),
      (∀ s ∈ segs, o.gpt4 s ≠ .error () ∧ o.gpt4Turbo s ≠ .error ()) →
      ∃ l, translateWithContext o segs code = .ok l) := by
  have hn1 : ¬ calculateSimilarity a.translatedText b.translatedText > 9/10 :=
    not_lt.mpr h2
  refine ⟨?_, ?_, ?_⟩
  · rw [merge_text_eq, merge_model_eq, merge_confidence_eq, merge_strategy_eq]
    rw [if_neg hn1, if_pos h1, if_neg hn1, if_pos h1, if_neg hn1, if_pos h1,
      if_neg hn1, if_pos h1]
    exact ⟨rfl, rfl, rfl, rfl⟩
  · intro content hc
    rw [merge_text_eq, merge_model_eq, merge_confidence_eq]
    rw [if_neg hn1, if_pos h1, if_neg hn1, if_pos h1, if_neg hn1, if_pos h1]
    exact ⟨by simp [verifyTranslation, hc], by simp [verifyTranslation, hc],
      by simp [verifyTranslation, hc]⟩
  · intro o code segs h
    exact translateLoop_ok o (targetLanguageOf code) segs h

/-- Witness for the arbiter-fallback theorem at the similarity-0.9 pair:
a thrown arbiter call yields confidence 0.75, the response "B" selects
candidate B, and a batch with only arbiter failures still succeeds. -/
theorem verified_selection_fallback_witness :
    (mergeTranslations (.error ()) resTen resNine).confidence = 3/4 ∧
    (mergeTranslations (.ok (some "B")) resTen resNine).text = resNine.translatedText ∧
    (∃ l, translateWithContext arbErrOracles [sampleSegment 1] "es" = .ok l) := by
  have h := verified_selection_fallback resTen resNine
    (by with_unfolding_all decide) (by with_unfolding_all decide)
  refine ⟨h.1.2.2.1, (h.2.1 (some "B") (by with_unfolding_all decide)).1, ?_⟩
  refine h.2.2 arbErrOracles "es" [sampleSegment 1] ?_
  intro s hs
  constructor <;> simp [arbErrOracles, okOracles]

/-- Counterexample to C2 as claimed: with similarity exactly 0.9 (the
verified-selection regime), an arbiter response of "C" — a token outside
the A and B alphabet — does not fall back to candidate A with confidence
0.75; it selects candidate B with label "gpt-4-turbo" and confidence
0.85. -/
theorem arbiter_nonA_response_counterexample :
    calculateSimilarity resTen.translatedText resNine.translatedText = 9/10 ∧
    (mergeTranslations (.ok (some "C")) resTen resNine).metadata.mergeStrategy =
      "verified_selection" ∧
    (mergeTranslations (.ok (some "C")) resTen resNine).text = resNine.translatedText ∧
    (mergeTranslations (.ok (some "C")) resTen resNine).primaryModel = "gpt-4-turbo" ∧
    (mergeTranslations (.ok (some "C")) resTen resNine).confidence = 17/20 ∧
    (mergeTranslations (.ok (some "C")) resTen resNine).text ≠ resTen.translatedText ∧
    (mergeTranslations (.ok (some "C")) resTen resNine).confidence ≠ 3/4 := by
  with_unfolding_all decide

/-! ## Confidence and strategy determination (C3) -/

/-- C3 (amended): the merge strategy is determined by the similarity
score alone — two executions with equal scores get equal strategies —
and so is the confidence in the high-agreement (0.95) and flagged (0.7)
regimes; but in the verified-selection regime the confidence depends on
the arbiter outcome as well: 0.85 when the arbiter call completes,
0.75 when it throws. -/
theorem merge_confidence_regime_determination (arb arb2 : CallOutcome)
    (a b a2 b2 : TranslationResult)
    (hs : calculateSimilarity a2.translatedText b2.translatedText =
      calculateSimilarity a.translatedText b.translatedText) :
    (mergeTranslations arb2 a2 b2).metadata.mergeStrategy =
      (mergeTranslations arb a b).metadata.mergeStrategy ∧
    ((mergeTranslations arb a b).metadata.mergeStrategy = "high_agreement" →
      (mergeTranslations arb a b).confidence = 19/20) ∧
    ((mergeTranslations arb a b).metadata.mergeStrategy = "low_agreement_flagged" →
      (mergeTranslations arb a b).confidence = 7/10) ∧
    ((mergeTranslations arb a b).metadata.mergeStrategy = "verified_selection" →
      (mergeTranslations arb a b).confidence =
        match arb with
        | .error _ => 3/4
        | .ok _ => 17/20) := by
  refine ⟨?_, ?_, ?_, ?_⟩
  · rw [merge_strategy_eq, merge_strategy_eq, hs]
  · intro hstrat
    have h1 := (strategy_high_iff arb a b).mp hstrat
    rw [merge_confidence_eq, if_pos h1]
  · intro hstrat
    have hle := (strategy_low_iff arb a b).mp hstrat
    rw [merge_confidence_eq, if_neg (not_lt.mpr (le_trans hle (by norm_num))),
      if_neg (not_lt.mpr hle)]
  · intro hstrat
    obtain ⟨h1, h2⟩ := (strategy_ver_iff arb a b).mp hstrat
    rw [merge_confidence_eq, if_neg (not_lt.mpr h2), if_pos h1]
    cases arb with
    | error e => rfl
    | ok content =>
      by_cases hc : content.map (fun c => jsToUpper (jsTrim c)) = some "A" <;>
        simp [verifyTranslation, hc]

/-- Witness for the confidence-determination theorem: two runs on the
similarity-0.9 pair share a strategy, and the arbiter-throw run has
confidence 0.75. -/
theorem merge_confidence_regime_determination_witness :
    (mergeTranslations (.ok (some "A")) resTen resNine).metadata.mergeStrategy =
      (mergeTranslations (.error ()) resTen resNine).metadata.mergeStrategy ∧
    (mergeTranslations (.error ()) resTen resNine).confidence = 3/4 := by
  have h := merge_confidence_regime_determination (.error ()) (.ok (some "A"))
    resTen resNine resTen resNine rfl
  exact ⟨h.1, h.2.2.2 (by with_unfolding_all decide)⟩

/-- Counterexample to C3 as claimed: two executions with the same
similarity score (0.9, the verified-selection regime) produce different
confidences — 0.85 when the arbiter answered "A", 0.75 when the arbiter
threw — so the confidence field is not determined by the agreement score
alone. -/
theorem confidence_not_score_determined_counterexample :
    (mergeTranslations (.ok (some "A")) resTen resNine).comparisonScore =
      (mergeTranslations (.error ()) resTen resNine).comparisonScore ∧
    (mergeTranslations (.ok (some "A")) resTen resNine).metadata.mergeStrategy =
      (mergeTranslations (.error ()) resTen resNine).metadata.mergeStrategy ∧
    (mergeTranslations (.ok (some "A")) resTen resNine).confidence = 17/20 ∧
    (mergeTranslations (.error ()) resTen resNine).confidence = 3/4 := by
  with_unfolding_all decide

/-! ## Orchestrator: failure propagation (C6) and order preservation (C7) -/

theorem translateSegment_error (o : Oracles) (lang : String) (seg : TranslationSegment)
    (hf : o.gpt4 seg = .error () ∨ o.gpt4Turbo seg = .error ()) :
    translateSegment o lang seg = .error () := by
  rcases hf with h | h
  · simp [translateSegment, translateWithGPT4, h, Bind.bind, Except.bind]
  · cases hA : o.gpt4 seg with
    | error e =>
      cases e
      simp [translateSegment, translateWithGPT4, hA, Bind.bind, Except.bind]
    | ok ca =>
      simp [translateSegment, translateWithGPT4, translateWithGPT4Turbo, hA, h,
        Bind.bind, Except.bind]

theorem translateLoop_error_of_mem (o : Oracles) (lang : String)
    (segs : List TranslationSegment) (s : TranslationSegment) (hs : s ∈ segs)
    (hf : o.gpt4 s = .error () ∨ o.gpt4Turbo s = .error ()) :
    translateLoop o lang segs = .error () := by
  induction segs with
  | nil => exact absurd hs (List.not_mem_nil s)
  | cons seg rest ih =>
    rcases List.mem_cons.mp hs with heq | hmem
    · subst heq
      simp [translateLoop, translateSegment_error o lang s hf, Bind.bind, Except.bind]
    · cases hA : translateSegment o lang seg with
      | error e =>
        cases e
        simp [translateLoop, hA, Bind.bind, Except.bind]
      | ok m =>
        simp [translateLoop, hA, ih hmem, Bind.bind, Except.bind]

theorem translateLoop_length_get (o : Oracles) (lang : String) :
    ∀ (segs : List TranslationSegment) (l : List MergedTranslation),
      translateLoop o lang segs = .ok l →
      l.length = segs.length ∧
      ∀ i (hi : i < segs.length) (hi2 : i < l.length),
        translateSegment o lang (segs.get ⟨i, hi⟩) = .ok (l.get ⟨i, hi2⟩) := by
  intro segs
  induction segs with
  | nil =>
    intro l hl
    simp only [translateLoop] at hl
    cases hl
    exact ⟨rfl, fun i hi hi2 => absurd hi (by simp)⟩
  | cons seg rest ih =>
    intro l hl
    cases hA : translateSegment o lang seg with
    | error e =>
      cases e
      rw [translateLoop] at hl
      simp [hA, Bind.bind, Except.bind] at hl
    | ok m =>
      cases hR : translateLoop o lang rest with
      | error e =>
        cases e
        rw [translateLoop] at hl
        simp [hA, hR, Bind.bind, Except.bind] at hl
      | ok ms =>
        rw [translateLoop] at hl
        simp only [hA, hR, Bind.bind, Except.bind, Pure.pure, Except.pure,
          Except.ok.injEq] at hl
        subst hl
        obtain ⟨hlen, hget⟩ := ih ms hR
        refine ⟨by simp [hlen], ?_⟩
        intro i hi hi2
        cases i with
        | zero => simpa using hA
        | succ j =>
          have hj : j < rest.length := by simpa using hi
          have hj2 : j < ms.length := by simpa using hi2
          simpa using hget j hj hj2

theorem translateLoop_append (o : Oracles) (lang : String)
    (xs ys : List TranslationSegment) :
    translateLoop o lang (xs ++ ys) =
      Except.bind (translateLoop o lang xs) (fun l1 =>
        Except.bind (translateLoop o lang ys) (fun l2 => Except.ok (l1 ++ l2))) := by
  induction xs with
  | nil =>
    simp only [List.nil_append, translateLoop, Except.bind]
    cases hy : translateLoop o lang ys <;> simp [Except.bind]
  | cons x xs ih =>
    cases hA : translateSegment o lang x with
    | error e =>
      cases e
      simp [translateLoop, hA, Bind.bind, Except.bind]
    | ok m =>
      simp only [List.cons_append, translateLoop, hA, Bind.bind, Except.bind, List.append_eq]
      rw [ih]
      cases hx : translateLoop o lang xs with
      | error e => cases e; simp [Except.bind]
      | ok l1 =>
        cases hy : translateLoop o lang ys with
        | error e => cases e; simp [Except.bind, Pure.pure, Except.pure]
        | ok l2 => simp [Except.bind, Pure.pure, Except.pure]

theorem batchTranslate_eq_translateWithContext (o : Oracles) (code : String)
    (segs : List TranslationSegment) :
    batchTranslate o segs code = translateWithContext o segs code := by
  have H : ∀ (n : Nat) (ss : List TranslationSegment), ss.length ≤ n →
      batchTranslate o ss code = translateWithContext o ss code := by
    intro n
    induction n with
    | zero =>
      intro ss h
      have hnil : ss = [] := List.eq_nil_of_length_eq_zero (Nat.le_zero.mp h)
      subst hnil
      rw [batchTranslate]
      simp [translateWithContext, translateLoop]
    | succ n ih =>
      intro ss h
      by_cases hnil : ss = []
      · subst hnil
        rw [batchTranslate]
        simp [translateWithContext, translateLoop]
      · rw [batchTranslate]
        rw [dif_neg hnil]
        have hdrop : (ss.drop 5).length ≤ n := by
          have hpos : 0 < ss.length := List.length_pos.mpr hnil
          simp only [List.length_drop]
          omega
        rw [ih (ss.drop 5) hdrop]
        simp only [translateWithContext]
        conv_rhs => rw [← List.take_append_drop 5 ss]
        rw [translateLoop_append]
        rfl
  exact H segs.length segs (le_refl segs.length)

/-- C6: if any provider call of any segment in the batch throws, the
whole batch call fails with the error and returns no partial result —
no merged translation is produced for any segment, including those
before the failing one; `batchTranslate` propagates the same failure. -/
theorem provider_failure_aborts_batch (o : Oracles) (code : String)
    (segs : List TranslationSegment) (s : TranslationSegment) (hs : s ∈ segs)
    (hf : o.gpt4 s = .error () ∨ o.gpt4Turbo s = .error ()) :
    translateWithContext o segs code = .error () ∧
    batchTranslate o segs code = .error () ∧
    ∀ l, translateWithContext o segs code ≠ .ok l := by
  have h : translateWithContext o segs code = .error () :=
    translateLoop_error_of_mem o (targetLanguageOf code) segs s hs hf
  refine ⟨h, ?_, ?_⟩
  · rw [batchTranslate_eq_translateWithContext, h]
  · intro l hl
    rw [h] at hl
    exact Except.noConfusion hl

/-- Witness for the failure-propagation theorem: the spec example
scenario — a batch of three segments whose second segment has a throwing
provider-B call — yields a failed batch with no partial result. -/
theorem provider_failure_aborts_batch_witness :
    translateWithContext failSecondTurbo
      [sampleSegment 1, sampleSegment 2, sampleSegment 3] "es" = .error () ∧
    batchTranslate failSecondTurbo
      [sampleSegment 1, sampleSegment 2, sampleSegment 3] "es" = .error () := by
  have h := provider_failure_aborts_batch failSecondTurbo "es"
    [sampleSegment 1, sampleSegment 2, sampleSegment 3] (sampleSegment 2)
    (by simp) (Or.inr (by simp [failSecondTurbo, sampleSegment]))
  exact ⟨h.1, h.2.1⟩

/-- C7: when the batch call succeeds on N segments it returns exactly N
merged translations, the i-th of which is the merge result of the i-th
input segment (output order matches input order); and `batchTranslate`,
which processes fixed chunks of five segments sequentially, returns the
identical list. -/
theorem translate_order_preservation (o : Oracles) (code : String)
    (segs : List TranslationSegment) (l : List MergedTranslation)
    (h : translateWithContext o segs code = .ok l) :
    l.length = segs.length ∧
    (∀ i (hi : i < segs.length) (hi2 : i < l.length),
      translateSegment o (targetLanguageOf code) (segs.get ⟨i, hi⟩) = .ok (l.get ⟨i, hi2⟩)) ∧
    batchTranslate o segs code = .ok l := by
  obtain ⟨hlen, hget⟩ := translateLoop_length_get o (targetLanguageOf code) segs l h
  exact ⟨hlen, hget, by rw [batchTranslate_eq_translateWithContext]; exact h⟩

/-- Witness for the order-preservation theorem: a two-segment batch on
all-successful oracles returns a two-element result, identical through
`batchTranslate`. -/
theorem translate_order_preservation_witness :
    ∃ l, translateWithContext okOracles [sampleSegment 1, sampleSegment 2] "es" = .ok l ∧
      l.length = 2 ∧
      batchTranslate okOracles [sampleSegment 1, sampleSegment 2] "es" = .ok l := by
  obtain ⟨l, hl⟩ := translateLoop_ok okOracles (targetLanguageOf "es")
    [sampleSegment 1, sampleSegment 2]
    (by intro s hs; exact ⟨by simp [okOracles], by simp [okOracles]⟩)
  have h := translate_order_preservation okOracles "es"
    [sampleSegment 1, sampleSegment 2] l hl
  exact ⟨l, hl, by simpa using h.1, h.2.2⟩

/-! ## Controller input validation (C5) -/

/-- C5 (amended): the controller rejects — before any provider call —
only a request with a missing segments array or an empty target
language; it does not check the language code against the supported map
(an unsupported code is passed through as the literal language name) and
does not validate segment time bounds, so for any accepted request with
at least one segment — non-increasing time bounds and unsupported codes
included — provider calls are issued. A segment whose text field is
missing is outside this segment type: in the source such a segment
fails inside the per-segment loop (a type error on reading the text)
rather than by up-front validation, and is not covered here. -/
theorem invalid_input_not_rejected (o : Oracles) (tl : String)
    (ss : List TranslationSegment) (htl : tl ≠ "") :
    translateVideoAccepted tl (some ss) = true ∧
    (∀ anyTl : String, translateVideoAccepted anyTl none = false ∧
      translateVideoCalls o anyTl none = []) ∧
    translateVideoAccepted "" (some ss) = false ∧
    translateVideoCalls o "" (some ss) = [] ∧
    translateVideoCalls o tl (some ss) = providerCallTrace o (targetLanguageOf tl) ss ∧
    (∀ s rest, ss = s :: rest → translateVideoCalls o tl (some ss) ≠ []) := by
  have hacc : translateVideoAccepted tl (some ss) = true := by
    simp [translateVideoAccepted, htl]
  refine ⟨hacc, ?_, ?_, ?_, ?_, ?_⟩
  · intro anyTl
    exact ⟨rfl, rfl⟩
  · simp [translateVideoAccepted]
  · simp [translateVideoCalls, translateVideoAccepted]
  · simp [translateVideoCalls, hacc]
  · intro s rest hss
    subst hss
    simp [translateVideoCalls, hacc, providerCallTrace, segmentProviderCalls]

/-- Witness for the validation theorem: the unsupported language code
"de" with a malformed segment (non-increasing time bounds) passes
validation and issues provider calls. -/
theorem invalid_input_not_rejected_witness :
    languageMap.lookup "de" = none ∧
    badSegment.endTime ≤ badSegment.startTime ∧
    translateVideoAccepted "de" (some [badSegment]) = true ∧
    translateVideoCalls okOracles "de" (some [badSegment]) ≠ [] := by
  have h := invalid_input_not_rejected okOracles "de" [badSegment] (by decide)
  exact ⟨rfl, by with_unfolding_all decide, h.1,
    h.2.2.2.2.2 badSegment [] rfl⟩

/-- Counterexample to C5 as claimed: a batch with an unsupported target
language code ("de" is outside the ten-entry map) and a malformed
segment (time bounds non-increasing) is not rejected: both provider
calls for the segment are issued and the translation call succeeds. -/
theorem unsupported_language_calls_counterexample :
    languageMap.lookup "de" = none ∧
    badSegment.endTime ≤ badSegment.startTime ∧
    translateVideoCalls okOracles "de" (some [badSegment]) =
      [(1, "gpt-4"), (1, "gpt-4-turbo")] ∧
    (∃ l, translateVideo okOracles "de" (some [badSegment]) = .ok l) := by
  refine ⟨rfl, by with_unfolding_all decide, by with_unfolding_all decide, ?_⟩
  obtain ⟨l, hl⟩ := translateLoop_ok okOracles (targetLanguageOf "de") [badSegment]
    (by intro s hs; exact ⟨by simp [okOracles], by simp [okOracles]⟩)
  refine ⟨l, ?_⟩
  simp only [translateVideo, translateVideoAccepted]
  rw [if_pos (by simp)]
  simp only [translateWithContext]
  rw [hl]

/-! ## QA status mapping (C8) -/

theorem merge_confidence_cases (arb : CallOutcome) (a b : TranslationResult) :
    (mergeTranslations arb a b).confidence = 19/20 ∨
    (mergeTranslations arb a b).confidence = 17/20 ∨
    (mergeTranslations arb a b).confidence = 3/4 ∨
    (mergeTranslations arb a b).confidence = 7/10 := by
  rw [merge_confidence_eq]
  split_ifs with h1 h2
  · exact Or.inl rfl
  · cases arb with
    | error e => exact Or.inr (Or.inr (Or.inl rfl))
    | ok content =>
      by_cases hc : content.map (fun c => jsToUpper (jsTrim c)) = some "A"
      · exact Or.inr (Or.inl (by simp [verifyTranslation, hc]))
      · exact Or.inr (Or.inl (by simp [verifyTranslation, hc]))
  · exact Or.inr (Or.inr (Or.inr rfl))

/-- C8 (amended): the QA review mapping uses strict boundaries —
approved iff confidence is strictly above 0.90, needs-review iff
strictly above 0.80 and at most 0.90, flagged iff at most 0.80 — so a
confidence of exactly 0.90 is needs-review and exactly 0.80 is flagged;
on every confidence value reachable from the merge resolver
(0.95, 0.85, 0.75, 0.70) this mapping coincides with the claimed
inclusive-boundary mapping. -/
theorem qaStatus_thresholds (c : Rat) :
    (qaStatus c = "approved" ↔ c > 9/10) ∧
    (qaStatus c = "needs-review" ↔ (c > 8/10 ∧ c ≤ 9/10)) ∧
    (qaStatus c = "flagged" ↔ c ≤ 8/10) ∧
    (∀ (arb : CallOutcome) (a b : TranslationResult),
      qaStatus (mergeTranslations arb a b).confidence =
        qaStatusClaimed (mergeTranslations arb a b).confidence) := by
  refine ⟨?_, ?_, ?_, ?_⟩
  · unfold qaStatus
    split_ifs with h1 h2
    · simpa using h1
    · simp only [show (("needs-review" : String) = "approved") = False from by simp]
      simpa using h1
    · simp only [show (("flagged" : String) = "approved") = False from by simp]
      simpa using h1
  · unfold qaStatus
    split_ifs with h1 h2
    · simp only [show (("approved" : String) = "needs-review") = False from by simp]
      constructor
      · intro hf; exact hf.elim
      · rintro ⟨-, hle⟩; exact absurd h1 (not_lt.mpr hle)
    · simpa using ⟨h2, not_lt.mp h1⟩
    · simp only [show (("flagged" : String) = "needs-review") = False from by simp]
      constructor
      · intro hf; exact hf.elim
      · rintro ⟨hgt, -⟩; exact absurd hgt h2
  · unfold qaStatus
    split_ifs with h1 h2
    · simp only [show (("approved" : String) = "flagged") = False from by simp]
      constructor
      · intro hf; exact hf.elim
      · intro hle; exact absurd h1 (not_lt.mpr (le_trans hle (by norm_num)))
    · simp only [show (("needs-review" : String) = "flagged") = False from by simp]
      constructor
      · intro hf; exact hf.elim
      · intro hle; exact absurd h2 (not_lt.mpr hle)
    · simpa using not_lt.mp h2
  · intro arb a b
    rcases merge_confidence_cases arb a b with h | h | h | h <;>
      rw [h] <;> with_unfolding_all decide

/-- Counterexample to C8 as claimed: the boundaries are strict, not
inclusive — a confidence of exactly 0.90 maps to needs-review (the
claimed mapping would approve it) and exactly 0.80 maps to flagged. -/
theorem qaStatus_boundary_counterexample :
    qaStatus (9/10) = "needs-review" ∧
    qaStatus (9/10) ≠ "approved" ∧
    qaStatus (8/10) = "flagged" ∧
    qaStatus (8/10) ≠ "needs-review" ∧
    qaStatusClaimed (9/10) = "approved" ∧
    qaStatusClaimed (8/10) = "needs-review" := by
  with_unfolding_all decide

/-! ## Duration estimator (C9) -/

/-- C9: the speaking-rate table is keyed "Chinese" while the language
map produces the display name "Chinese (Mandarin)", so the Mandarin
entry (160 words per minute) is unreachable and `estimateDuration` for
Chinese falls back to the generic default rate of 175 — diverging from
the documented per-language behavior, which the other nine languages
follow (Spanish shown as a representative). -/
theorem estimateDuration_chinese_mandarin_divergence :
    (("zh", "Chinese (Mandarin)") ∈ languageMap) ∧
    targetLanguageOf "zh" = "Chinese (Mandarin)" ∧
    speechRates.lookup "Chinese (Mandarin)" = none ∧
    speechRates.lookup "Chinese" = some 160 ∧
    estimateDuration "hola mundo" "Chinese (Mandarin)" = (2 / 175) * 60 ∧
    estimateDuration "hola mundo" "Chinese (Mandarin)" ≠ (2 / 160) * 60 ∧
    estimateDuration "hola mundo" "Spanish" = (2 / 180) * 60 ∧
    ((languageMap.map Prod.snd).filter
      (fun n => !(speechRates.lookup n).isSome)) = ["Chinese (Mandarin)"] := by
  with_unfolding_all decide

end TranslationMerge
